import Mathlib

/-!
Verification of the keep-notes application (a note-taking web app backed by a
managed database).  The definitions below are a shallow embedding of the
application's data model and operations, translated from the TypeScript
sources and SQL migrations; the theorems settle the specification claims
against them.
-/

namespace KeepNotes

/-! ## Data model (from the SQL migrations)

`notes`, `note_versions`, `note_tags` and `shared_notes` tables.  Timestamps
are modelled as natural numbers; UUIDs as natural numbers.  `NULL`able
columns are `Option`s.
-/

/-- A row of the `notes` table (migrations 20251021150410 and part_003:
columns id, user_id, title, content, created_at, updated_at, is_pinned,
color, deleted_at).  The owner id is omitted: all modelled flows act on a
single user's rows (row-level security scopes every query). -/
structure Note where
  id : Nat
  title : Option String
  content : Option String
  isPinned : Bool
  color : Option String
  createdAt : Nat
  updatedAt : Nat
  deletedAt : Option Nat
deriving DecidableEq, Repr

/-- A row of the `note_versions` table (migration 20251102172906). -/
structure NoteVersion where
  noteId : Nat
  title : Option String
  content : Option String
  versionNumber : Nat
  createdAt : Nat
deriving DecidableEq, Repr

/-- A row of the `shared_notes` table (migration 20260112204903). -/
structure SharedLink where
  id : Nat
  noteId : Nat
  shareToken : String
  passwordHash : Option String
  expiresAt : Option Nat
  createdAt : Nat
  isActive : Bool
  viewCount : Nat
deriving DecidableEq, Repr

/-- The database state: the four tables the claims are about.  `noteTags`
rows are `(note_id, tag_id)` pairs; the table's primary key is the pair
(migration part_003, `PRIMARY KEY (note_id, tag_id)`). -/
structure DB where
  notes : List Note
  versions : List NoteVersion
  noteTags : List (Nat × Nat)
  sharedLinks : List SharedLink
deriving DecidableEq, Repr

/-! ## JavaScript string helpers -/

/-- JavaScript `s || null` on a string: the empty string is falsy and
becomes `null`. -/
def jsOrNull (s : String) : Option String :=
  if s = "" then none else some s

/-- Drop the literal `pat` from the front of `cs` if it matches exactly;
return the remainder. -/
def dropLit : List Char → List Char → Option (List Char)
  | [], cs => some cs
  | _, [] => none
  | p :: ps, c :: cs => if c = p then dropLit ps cs else none

/-- Occurrence of the literal `pat` at some position of `cs` (fueled by the
length of `cs`). -/
def containsLitAux (pat : List Char) : Nat → List Char → Bool
  | 0, cs => (dropLit pat cs).isSome
  | fuel + 1, cs =>
    if (dropLit pat cs).isSome then true
    else
      match cs with
      | [] => false
      | _ :: cs1 => containsLitAux pat fuel cs1

/-- JavaScript `String.prototype.includes(pat)` for a literal pattern. -/
def jsIncludes (s pat : String) : Bool :=
  containsLitAux pat.toList s.length s.toList

/-! ## SHA-256 (models the Web Crypto `crypto.subtle.digest('SHA-256', _)`
primitive used by both `hashPassword` implementations)

Words are naturals reduced modulo `2^32`; messages are byte lists.  This is
the FIPS 180-4 algorithm. -/

/-- Reduce to a 32-bit word. -/
def w32 (n : Nat) : Nat := n % 4294967296

/-- Right rotation of a 32-bit word. -/
def rotr (n x : Nat) : Nat := w32 ((x >>> n) ||| (x <<< (32 - n)))

/-- Bitwise complement of a 32-bit word. -/
def cpl (x : Nat) : Nat := x ^^^ 4294967295

def ch (x y z : Nat) : Nat := (x &&& y) ^^^ (cpl x &&& z)

def maj (x y z : Nat) : Nat := (x &&& y) ^^^ (x &&& z) ^^^ (y &&& z)

def bsig0 (x : Nat) : Nat := rotr 2 x ^^^ rotr 13 x ^^^ rotr 22 x

def bsig1 (x : Nat) : Nat := rotr 6 x ^^^ rotr 11 x ^^^ rotr 25 x

def ssig0 (x : Nat) : Nat := rotr 7 x ^^^ rotr 18 x ^^^ (x >>> 3)

def ssig1 (x : Nat) : Nat := rotr 17 x ^^^ rotr 19 x ^^^ (x >>> 10)

/-- The 64 SHA-256 round constants (FIPS 180-4 §4.2.2, in decimal). -/
def k256 : List Nat :=
  [1116352408, 1899447441, 3049323471, 3921009573, 961987163, 1508970993,
   2453635748, 2870763221, 3624381080, 310598401, 607225278, 1426881987,
   1925078388, 2162078206, 2614888103, 3248222580, 3835390401, 4022224774,
   264347078, 604807628, 770255983, 1249150122, 1555081692, 1996064986,
   2554220882, 2821834349, 2952996808, 3210313671, 3336571891, 3584528711,
   113926993, 338241895, 666307205, 773529912, 1294757372, 1396182291,
   1695183700, 1986661051, 2177026350, 2456956037, 2730485921, 2820302411,
   3259730800, 3345764771, 3516065817, 3600352804, 4094571909, 275423344,
   430227734, 506948616, 659060556, 883997877, 958139571, 1322822218,
   1537002063, 1747873779, 1955562222, 2024104815, 2227730452, 2361852424,
   2428436474, 2756734187, 3204031479, 3329325298]

/-- The initial SHA-256 hash value (FIPS 180-4 §5.3.3, in decimal). -/
def h256 : List Nat :=
  [1779033703, 3144134277, 1013904242, 2773480762,
   1359893119, 2600822924, 528734635, 1541459225]

/-- Big-endian bytes of a 64-bit length. -/
def be64 (n : Nat) : List Nat :=
  [(n >>> 56) % 256, (n >>> 48) % 256, (n >>> 40) % 256, (n >>> 32) % 256,
   (n >>> 24) % 256, (n >>> 16) % 256, (n >>> 8) % 256, n % 256]

/-- Big-endian bytes of a 32-bit word. -/
def be32 (n : Nat) : List Nat :=
  [(n >>> 24) % 256, (n >>> 16) % 256, (n >>> 8) % 256, n % 256]

/-- SHA-256 padding: append `0x80`, zeros up to 56 mod 64, then the bit
length as 8 big-endian bytes. -/
def padMessage (msg : List Nat) : List Nat :=
  let l := msg.length
  let zeros := (120 - (l + 1) % 64) % 64
  msg ++ [0x80] ++ List.replicate zeros 0 ++ be64 (8 * l)

/-- Group bytes into 32-bit big-endian words. -/
def bytesToWords : List Nat → List Nat
  | a :: b :: c :: d :: rest => (a <<< 24 ||| b <<< 16 ||| c <<< 8 ||| d) :: bytesToWords rest
  | _ => []

/-- Split a (padded) byte list into 16-word blocks.  The fuel argument is
the list length, which bounds the number of 64-byte blocks. -/
def toBlocks : Nat → List Nat → List (List Nat)
  | 0, _ => []
  | _, [] => []
  | fuel + 1, bs => bytesToWords (bs.take 64) :: toBlocks fuel (bs.drop 64)

/-- One message-schedule extension step: append word `t` computed from
words `t-2`, `t-7`, `t-15`, `t-16`. -/
def schedStep (ws : List Nat) : List Nat :=
  let t := ws.length
  ws ++ [w32 (ssig1 (ws.getD (t - 2) 0) + ws.getD (t - 7) 0 +
              ssig0 (ws.getD (t - 15) 0) + ws.getD (t - 16) 0)]

/-- Expand a 16-word block into the 64-word message schedule. -/
def schedule (ws : List Nat) : List Nat :=
  (List.range 48).foldl (fun acc _ => schedStep acc) ws

/-- One SHA-256 round on the working variables `[a,b,c,d,e,f,g,h]`. -/
def roundStep (w : List Nat) (st : List Nat) (i : Nat) : List Nat :=
  match st with
  | [a, b, c, d, e, f, g, h] =>
    let t1 := w32 (h + bsig1 e + ch e f g + k256.getD i 0 + w.getD i 0)
    let t2 := w32 (bsig0 a + maj a b c)
    [w32 (t1 + t2), a, b, c, w32 (d + t1), e, f, g]
  | other => other

/-- Compress one 16-word block into the running hash (8 words). -/
def compressBlock (h : List Nat) (block : List Nat) : List Nat :=
  let w := schedule block
  let st := (List.range 64).foldl (roundStep w) h
  List.zipWith (fun x y => w32 (x + y)) h st

/-- SHA-256 of a byte list, as 32 output bytes. -/
def sha256Bytes (msg : List Nat) : List Nat :=
  let blocks := toBlocks (padMessage msg).length (padMessage msg)
  (blocks.foldl compressBlock h256).flatMap be32

/-- UTF-8 encoding of one character (models the `TextEncoder` primitive). -/
def utf8Char (c : Char) : List Nat :=
  let n := c.toNat
  if n < 0x80 then [n]
  else if n < 0x800 then [0xC0 ||| (n >>> 6), 0x80 ||| (n &&& 0x3F)]
  else if n < 0x10000 then
    [0xE0 ||| (n >>> 12), 0x80 ||| ((n >>> 6) &&& 0x3F), 0x80 ||| (n &&& 0x3F)]
  else
    [0xF0 ||| (n >>> 18), 0x80 ||| ((n >>> 12) &&& 0x3F),
     0x80 ||| ((n >>> 6) &&& 0x3F), 0x80 ||| (n &&& 0x3F)]

/-- UTF-8 encoding of a string (`new TextEncoder().encode(pwd)`). -/
def utf8Encode (s : String) : List Nat := s.data.flatMap utf8Char

/-- Models `b.toString(16).padStart(2, '0')`: one byte as two lowercase hex
digits. -/
def byteToHex (b : Nat) : String :=
  let digs := "0123456789abcdef".toList
  String.mk [digs.getD (b / 16) '0', digs.getD (b % 16) '0']

/-- Models `hashArray.map(hex).join('')` over the digest bytes. -/
def bytesToHex (bs : List Nat) : String := String.join (bs.map byteToHex)

/-- Function `hashPassword` as defined in ShareNoteDialog.tsx lines 71-77 (used when
creating a share link): UTF-8 encode, SHA-256, lowercase hex. -/
def hashPasswordCreate (pwd : String) : String :=
  bytesToHex (sha256Bytes (utf8Encode pwd))

/-- Function `hashPassword` as defined in SharedNote.tsx lines 109-115 (used when
resolving a share link): UTF-8 encode, SHA-256, lowercase hex. -/
def hashPasswordResolve (pwd : String) : String :=
  bytesToHex (sha256Bytes (utf8Encode pwd))

/-! ## Note repository and version log

Translated from NoteCard.tsx (`handleDelete`), Trash.tsx (`restoreNote`),
NoteEditor.tsx (`handleAutoSave`, `handleSave`) and the
`update_updated_at_column` trigger of migration 20251021150410. -/

/-- The `update_notes_updated_at` BEFORE UPDATE trigger: every update to a
`notes` row sets `NEW.updated_at = now()`. -/
def updateUpdatedAtColumn (now : Nat) (n : Note) : Note :=
  { n with updatedAt := now }

/-- Models `supabase.from('notes').update({title, content, is_pinned, color})
.eq('id', id)`: rewrite the fields of every row whose id matches, with the
trigger stamping `updated_at`. -/
def updateNoteFields (db : DB) (id : Nat) (title content : Option String)
    (isPinned : Bool) (color : Option String) (now : Nat) : DB :=
  { db with notes := db.notes.map fun n =>
      if n.id = id then
        let n1 := { n with title := title, content := content,
                           isPinned := isPinned, color := color }
        updateUpdatedAtColumn now n1
      else n }

/-- Models `supabase.from('notes').select(..).eq('id', noteId).single()`. -/
def findNote (db : DB) (id : Nat) : Option Note :=
  db.notes.find? (fun n => n.id == id)

/-- The versions of one note (`.eq('note_id', noteId)`). -/
def versionsFor (db : DB) (id : Nat) : List NoteVersion :=
  db.versions.filter (fun v => v.noteId == id)

/-- Models `select('version_number').order('version_number', {ascending: false})
.limit(1).single()` followed by `latestVersion?.version_number || 0`: the
largest existing version number of the note, or 0 when there is none
(the single-row fetch of an empty table yields `null`, discarded without an
error check). -/
def latestVersionNumber (db : DB) (id : Nat) : Nat :=
  (versionsFor db id).foldl (fun m v => max m v.versionNumber) 0

/-- Function `handleAutoSave` (NoteEditor.tsx lines 462-481): the debounced
auto-save flush.  It updates the note row directly — it reads no current
content and inserts no `note_versions` row.  (The `!noteId || loading`
guard is discharged by the caller: the flush only runs for an open editor
on an existing note.) -/
def handleAutoSave (db : DB) (noteId : Nat) (title content : String)
    (isPinned : Bool) (color : Option String) (now : Nat) : DB :=
  updateNoteFields db noteId (jsOrNull title) (jsOrNull content) isPinned color now

/-- The existing-note branch of `handleSave` (NoteEditor.tsx lines
490-527).  Returns the new database state and whether an error was surfaced
to the user (the `catch` branch's toast).

* The current title/content are fetched; a `null` result (note missing)
  silently skips the snapshot — the fetch's error field is discarded.
* The snapshot insert's result is discarded entirely (`await ... insert`
  with no error check), so `versionInsertOk = false` removes the snapshot
  but changes nothing else: the note update still runs and no error is
  surfaced.
* Only the note update's error is checked (`if (error) throw error`),
  modelled by `updateOk`. -/
def handleSaveExisting (db : DB) (noteId : Nat) (title content : String)
    (isPinned : Bool) (color : Option String)
    (versionInsertOk updateOk : Bool) (now : Nat) : DB × Bool :=
  let db1 :=
    match findNote db noteId with
    | none => db
    | some cur =>
      if versionInsertOk then
        { db with versions := db.versions ++
            [⟨noteId, cur.title, cur.content, latestVersionNumber db noteId + 1, now⟩] }
      else db
  if updateOk then
    (updateNoteFields db1 noteId (jsOrNull title) (jsOrNull content) isPinned color now, false)
  else (db1, true)

/-- Function `handleDelete` (NoteCard.tsx lines 50-65): soft delete, `update({
deleted_at: new Date().toISOString() })`; the trigger stamps
`updated_at`. -/
def softDelete (db : DB) (id now : Nat) : DB :=
  { db with notes := db.notes.map fun n =>
      if n.id = id then updateUpdatedAtColumn now { n with deletedAt := some now } else n }

/-- Function `restoreNote` (Trash.tsx lines 67-80): `update({ deleted_at: null })`;
the trigger stamps `updated_at`. -/
def restoreNote (db : DB) (id now : Nat) : DB :=
  { db with notes := db.notes.map fun n =>
      if n.id = id then updateUpdatedAtColumn now { n with deletedAt := none } else n }

/-- The notes visible in the owner's main list: `deleted_at` is null
(spec §3 visibility invariant; the Trash page's deleted list is the
complement, `.not('deleted_at', 'is', null)`). -/
def activeNotes (db : DB) : List Note :=
  db.notes.filter (fun n => n.deletedAt.isNone)

/-! ## Editor session state (NoteEditor.tsx)

The in-memory editor state, its React effects, and the debounce flush.
`autoSavePending` models the single pending `setTimeout` handle — at most
one flush is scheduled; a new change replaces it. -/

structure EditorState where
  title : String
  content : String
  isPinned : Bool
  color : Option String
  hasUnsavedChanges : Bool
  autoSavePending : Bool
deriving DecidableEq, Repr

/-- The two effects that run after a title/content state change while the
editor is open (NoteEditor.tsx lines 393-420): the change tracker sets
`hasUnsavedChanges` when title or content is non-empty (JS truthiness
`title || content`), and the auto-save effect (re)schedules the 3-second
debounced flush whenever there are unsaved changes. -/
def runEditorEffects (isOpen : Bool) (st : EditorState) : EditorState :=
  let st1 := if isOpen && (st.title != "" || st.content != "")
             then { st with hasUnsavedChanges := true } else st
  if isOpen && st1.hasUnsavedChanges then { st1 with autoSavePending := true } else st1

/-- The `onRestore` handler of the version-history dialog (NoteEditor.tsx
lines 895-899): `setTitle(version.title || ""); setContent(version.content
|| "")`, followed by the React effects the state change triggers.  The
editor dialog stays open while version history is shown. -/
def restoreVersion (st : EditorState) (v : NoteVersion) : EditorState :=
  runEditorEffects true
    { st with title := v.title.getD "", content := v.content.getD "" }

/-- Selecting Restore, viewed on the combined (database, editor) state: the
handler touches only the in-memory editor state. -/
def restoreStep (s : DB × EditorState) (v : NoteVersion) : DB × EditorState :=
  (s.1, restoreVersion s.2 v)

/-- The pending debounce timer firing: runs `handleAutoSave` (which clears
`hasUnsavedChanges`) and consumes the pending handle.  No-op when no flush
is pending. -/
def autoSaveFlush (db : DB) (noteId : Nat) (st : EditorState) (now : Nat) :
    DB × EditorState :=
  if st.autoSavePending then
    (handleAutoSave db noteId st.title st.content st.isPinned st.color now,
     { st with autoSavePending := false, hasUnsavedChanges := false })
  else (db, st)

/-! ## Tag attachment (TagManager's `addTagToNote`, cited as
NoteCard.tsx lines 277-291, and the `note_tags` table of part_003) -/

/-- Insert into `note_tags`.  The table's `PRIMARY KEY (note_id, tag_id)`
rejects a duplicate pair with a duplicate-key error; otherwise the row is
appended.  Returns the error message, if any. -/
def insertNoteTag (db : DB) (noteId tagId : Nat) : DB × Option String :=
  if (noteId, tagId) ∈ db.noteTags then
    (db, some "duplicate key value violates unique constraint")
  else ({ db with noteTags := db.noteTags ++ [(noteId, tagId)] }, none)

/-- Function `addTagToNote` (TagManager): inserts the association; on an error whose
message contains 'duplicate' the failure is swallowed
(`if (!error.message.includes('duplicate'))` guards the toast), otherwise
an error toast is surfaced.  Returns the database and whether an error was
surfaced to the user. -/
def addTagToNote (db : DB) (noteId tagId : Nat) : DB × Bool :=
  match insertNoteTag db noteId tagId with
  | (db1, none) => (db1, false)
  | (db1, some msg) => (db1, !(jsIncludes msg "duplicate"))

/-! ## Share links and the shared-note resolver

ShareNoteDialog.tsx (`generateToken`, `createShareLink`) and
SharedNote.tsx (`loadSharedNote`, `loadNoteContent`, `handleUnlock`). -/

/-- The token alphabet of `generateToken` (ShareNoteDialog.tsx line 63). -/
def tokenChars : String :=
  "ABCDEFGHIJKLMNOPQRSTUVWXYZabcdefghijklmnopqrstuvwxyz0123456789"

/-- Function `generateToken` (ShareNoteDialog.tsx lines 62-69): 24 iterations of
`chars.charAt(Math.floor(Math.random() * chars.length))`.  The source of
randomness is `Math.random`, a floating-point PRNG; it is modelled as a
stream of choices, reduced modulo the alphabet size exactly as
`Math.floor(r * chars.length)` lands in `[0, 61]` for `r ∈ [0, 1)`. -/
def generateToken (rand : Nat → Nat) : String :=
  String.mk ((List.range 24).map fun i => tokenChars.toList.getD (rand i % 62) 'A')

/-- Function `createShareLink` (ShareNoteDialog.tsx lines 79-113): inserts a
`shared_notes` row with a fresh token, the password hash when a password
was supplied, and `now + days·24h` as expiry when requested.  `is_active`
and `view_count` take their column defaults (`true`, `0`). -/
def createShareLink (db : DB) (rowId noteId : Nat) (rand : Nat → Nat)
    (password : Option String) (expirationDays : Option Nat) (now : Nat) : DB :=
  { db with sharedLinks := db.sharedLinks ++
      [{ id := rowId
         noteId := noteId
         shareToken := generateToken rand
         passwordHash := password.map hashPasswordCreate
         expiresAt := expirationDays.map fun d => now + d * 24 * 60 * 60 * 1000
         createdAt := now
         isActive := true
         viewCount := 0 }] }

/-- The component state of the public share route (SharedNote.tsx).  The
transient spinner flags (`loading`, `unlocking`) are omitted: each handler
is modelled atomically.  `Ready` is `note.isSome`; `Error` is
`error.isSome`; `PasswordRequired` is `requiresPassword`. -/
structure ResolverState where
  error : Option String
  sharedNote : Option SharedLink
  note : Option Note
  requiresPassword : Bool
  passwordError : Bool
deriving DecidableEq, Repr

/-- The initial component state (`useState` initialisers). -/
def initResolver : ResolverState :=
  { error := none, sharedNote := none, note := none,
    requiresPassword := false, passwordError := false }

/-- Modelled from the spec: the `get-shared-note` privileged edge function
is invoked by `loadNoteContent` but its source is not in the repository
(only the caller is).  Per spec §4.6 it must, under elevated privilege:
re-validate that the SharedLink is active and not expired, load the note
only if its soft-delete marker is unset, increment `view_count` by exactly
1 on success, and return the note's fields; each failure maps to an
error. -/
def getSharedNote (db : DB) (noteId sharedNoteId now : Nat) : DB × Option Note :=
  match db.sharedLinks.find? (fun l => l.id == sharedNoteId) with
  | none => (db, none)
  | some link =>
    if !link.isActive then (db, none)
    else if (match link.expiresAt with | some e => decide (e < now) | none => false) then
      (db, none)
    else
      match findNote db noteId with
      | none => (db, none)
      | some nt =>
        if nt.deletedAt.isNone then
          ({ db with sharedLinks := db.sharedLinks.map fun l =>
               if l.id = sharedNoteId then { l with viewCount := l.viewCount + 1 } else l },
           some nt)
        else (db, none)

/-- Function `loadNoteContent` (SharedNote.tsx lines 90-107): invoke the privileged
fetch; on success store the note (Ready) and clear `requiresPassword`; on
failure set the error message. -/
def loadNoteContent (db : DB) (noteId sharedNoteId now : Nat)
    (st : ResolverState) : DB × ResolverState :=
  match getSharedNote db noteId sharedNoteId now with
  | (db1, some nt) => (db1, { st with note := some nt, requiresPassword := false })
  | (db1, none) => (db1, { st with error := some "Failed to load note content." })

/-- Function `loadSharedNote` (SharedNote.tsx lines 46-88): fetch the link by token
with `is_active = true`; missing ⇒ invalid/deactivated error; `expires_at`
in the past ⇒ expired error; a stored password hash ⇒ PasswordRequired
(content not fetched); otherwise fetch the content directly. -/
def loadSharedNote (db : DB) (token : String) (now : Nat) : DB × ResolverState :=
  match db.sharedLinks.find? (fun l => l.shareToken == token && l.isActive) with
  | none =>
    (db, { initResolver with error := some "This shared link is invalid or has been deactivated." })
  | some sharedData =>
    if (match sharedData.expiresAt with | some e => decide (e < now) | none => false) then
      (db, { initResolver with error := some "This shared link has expired." })
    else
      let st := { initResolver with sharedNote := some sharedData }
      if sharedData.passwordHash.isSome then
        (db, { st with requiresPassword := true })
      else
        loadNoteContent db sharedData.noteId sharedData.id now st

/-- Function `handleUnlock` (SharedNote.tsx lines 117-138): `if (!password ||
!sharedNote) return;` — an empty password (or no held link) is ignored
outright.  Otherwise `passwordError` is cleared, the candidate is hashed
and compared with the stored hash (`!==`); a mismatch only sets
`passwordError`; a match invokes the content fetch. -/
def handleUnlock (db : DB) (st : ResolverState) (password : String) (now : Nat) :
    DB × ResolverState :=
  if password = "" then (db, st)
  else
    match st.sharedNote with
    | none => (db, st)
    | some sn =>
      let st1 := { st with passwordError := false }
      if some (hashPasswordResolve password) ≠ sn.passwordHash then
        (db, { st1 with passwordError := true })
      else
        loadNoteContent db sn.noteId sn.id now st1

/-! ## Export converters (ExportDialog, part_001 lines 162-189)

Function `htmlToMarkdown` is a chain of JavaScript regex replacements of the
shape `/<name[^>]*>(.*?)<\/name>/gi`; the scanners below model that shape:
case-insensitive tag names (the `i` flag), greedy `[^>]*` before the `>`,
a lazy capture whose `.` does not match line terminators, global left-to-right
replacement whose replacement text is not rescanned.  The fuel arguments are
list lengths; every step consumes at least one character, so they never run
out on the actual input. -/

/-- Case-insensitive literal match: drop `pat` from the front of `cs` if it
matches up to case; return the remainder. -/
def dropCI : List Char → List Char → Option (List Char)
  | [], cs => some cs
  | _, [] => none
  | p :: ps, c :: cs => if c.toLower = p.toLower then dropCI ps cs else none

/-- Consume `[^>]*` followed by a literal `>`: drop characters up to and
including the first `>`; fail when there is none. -/
def dropToGt : List Char → Option (List Char)
  | [] => none
  | c :: cs => if c = '>' then some cs else dropToGt cs

/-- Match `<name[^>]*>` at the head; return the remainder after the `>`. -/
def matchOpenTag (name cs : List Char) : Option (List Char) :=
  match cs with
  | '<' :: rest =>
    match dropCI name rest with
    | some rest1 => dropToGt rest1
    | none => none
  | _ => none

/-- Match the literal close tag `</name>` at the head (case-insensitive);
return the remainder. -/
def matchCloseTag (name cs : List Char) : Option (List Char) :=
  match cs with
  | '<' :: '/' :: rest =>
    match dropCI name rest with
    | some ('>' :: rest2) => some rest2
    | _ => none
  | _ => none

/-- The lazy capture `(.*?)` before `</name>`: the shortest run of
non-line-terminator characters after which the close tag matches.  Returns
the captured characters and the remainder after the close tag. -/
def lazyCapture (name : List Char) : Nat → List Char → Option (List Char × List Char)
  | 0, _ => none
  | fuel + 1, cs =>
    match matchCloseTag name cs with
    | some rest => some ([], rest)
    | none =>
      match cs with
      | [] => none
      | c :: cs1 =>
        if c = '\n' ∨ c = '\r' then none
        else
          match lazyCapture name fuel cs1 with
          | some (cap, rest) => some (c :: cap, rest)
          | none => none

/-- Global replacement of `/<name[^>]*>(.*?)<\/name>/gi` by
`pre ++ capture ++ post`, scanning left to right. -/
def replaceTagAux (name pre post : List Char) : Nat → List Char → List Char
  | 0, cs => cs
  | fuel + 1, cs =>
    match cs with
    | [] => []
    | c :: cs1 =>
      match matchOpenTag name cs with
      | some afterOpen =>
        match lazyCapture name (afterOpen.length + 1) afterOpen with
        | some (cap, rest) => pre ++ cap ++ post ++ replaceTagAux name pre post fuel rest
        | none => c :: replaceTagAux name pre post fuel cs1
      | none => c :: replaceTagAux name pre post fuel cs1

/-- Models `md.replace(/<name[^>]*>(.*?)<\/name>/gi, pre + '$1' + post)`. -/
def jsReplaceTag (name pre post s : String) : String :=
  String.mk (replaceTagAux name.toList pre.toList post.toList s.length s.toList)

/-- JavaScript `\s` on the characters that can occur here. -/
def isJsWs (c : Char) : Bool :=
  c = ' ' || c = '\t' || c = '\n' || c = '\r' || c = '\x0b' || c = '\x0c'

/-- Match `<br\s*\/?>` at the head (case-insensitive); return the
remainder. -/
def matchBrTag (cs : List Char) : Option (List Char) :=
  match cs with
  | '<' :: rest =>
    match dropCI ['b', 'r'] rest with
    | some rest1 =>
      match rest1.dropWhile isJsWs with
      | '/' :: '>' :: rest2 => some rest2
      | '>' :: rest2 => some rest2
      | _ => none
    | none => none
  | _ => none

/-- Global replacement of `/<br\s*\/?>/gi` by a newline. -/
def replaceBrAux : Nat → List Char → List Char
  | 0, cs => cs
  | fuel + 1, cs =>
    match cs with
    | [] => []
    | c :: cs1 =>
      match matchBrTag cs with
      | some rest => '\n' :: replaceBrAux fuel rest
      | none => c :: replaceBrAux fuel cs1

/-- Match `<[^>]+>` at the head: an angle-bracketed run with at least one
character inside; return the remainder. -/
def matchAnyTag (cs : List Char) : Option (List Char) :=
  match cs with
  | '<' :: '>' :: _ => none
  | '<' :: rest => dropToGt rest
  | _ => none

/-- Global replacement of `/<[^>]+>/g` by the empty string. -/
def stripTagsAux : Nat → List Char → List Char
  | 0, cs => cs
  | fuel + 1, cs =>
    match cs with
    | [] => []
    | c :: cs1 =>
      match matchAnyTag cs with
      | some rest => stripTagsAux fuel rest
      | none => c :: stripTagsAux fuel cs1

/-- Global replacement of a literal pattern, scanning left to right; the
replacement text is not rescanned. -/
def replaceLitAux (pat rep : List Char) : Nat → List Char → List Char
  | 0, cs => cs
  | fuel + 1, cs =>
    match cs with
    | [] => []
    | c :: cs1 =>
      match dropLit pat cs with
      | some rest => rep ++ replaceLitAux pat rep fuel rest
      | none => c :: replaceLitAux pat rep fuel cs1

/-- Models `s.replace(/pat/g, rep)` for a literal pattern: replace every
occurrence. -/
def jsReplaceAll (s pat rep : String) : String :=
  String.mk (replaceLitAux pat.toList rep.toList s.length s.toList)

/-- Models `String.prototype.trim()`: strip leading and trailing
whitespace. -/
def jsTrim (s : String) : String :=
  String.mk (((s.toList.dropWhile isJsWs).reverse.dropWhile isJsWs).reverse)

/-- Function `htmlToMarkdown` (part_001 lines 167-189): the chain of tag
replacements, then stripping of the remaining tags, entity decoding and a
final trim. -/
def htmlToMarkdown (html : String) : String :=
  let md := html
  let md := jsReplaceTag "h1" "# " "\n" md
  let md := jsReplaceTag "h2" "## " "\n" md
  let md := jsReplaceTag "h3" "### " "\n" md
  let md := jsReplaceTag "strong" "**" "**" md
  let md := jsReplaceTag "b" "**" "**" md
  let md := jsReplaceTag "em" "*" "*" md
  let md := jsReplaceTag "i" "*" "*" md
  let md := jsReplaceTag "u" "_" "_" md
  let md := jsReplaceTag "s" "~~" "~~" md
  let md := jsReplaceTag "code" "`" "`" md
  let md := jsReplaceTag "li" "- " "\n" md
  let md := String.mk (replaceBrAux md.length md.toList)
  let md := jsReplaceTag "p" "" "\n\n" md
  let md := String.mk (stripTagsAux md.length md.toList)
  let md := jsReplaceAll md "&nbsp;" " "
  let md := jsReplaceAll md "&amp;" "&"
  let md := jsReplaceAll md "&lt;" "<"
  let md := jsReplaceAll md "&gt;" ">"
  jsTrim md

/-- Text content of simple markup: drop every angle-bracketed tag and keep
the character data.  A dangling unterminated `<...` is dropped, as an HTML
parser would not render it as text. -/
def textContentAux : Nat → List Char → List Char
  | 0, cs => cs
  | fuel + 1, cs =>
    match cs with
    | [] => []
    | '<' :: rest =>
      match dropToGt rest with
      | some rest1 => textContentAux fuel rest1
      | none => []
    | c :: cs1 => c :: textContentAux fuel cs1

/-- Function `stripHtml` (part_001 lines 162-165):
`new DOMParser().parseFromString(html, 'text/html').body.textContent` —
markup removed, character entities decoded (the named entities that occur
in this application's content). -/
def stripHtml (html : String) : String :=
  let s := String.mk (textContentAux html.length html.toList)
  let s := jsReplaceAll s "&nbsp;" (String.mk [Char.ofNat 160])
  let s := jsReplaceAll s "&lt;" "<"
  let s := jsReplaceAll s "&gt;" ">"
  let s := jsReplaceAll s "&quot;" "\""
  jsReplaceAll s "&amp;" "&"

/-! ## Helper lemmas -/

set_option maxRecDepth 100000

theorem le_foldl_max (l : List NoteVersion) (acc : Nat) :
    acc ≤ l.foldl (fun m v => max m v.versionNumber) acc := by
  induction l generalizing acc with
  | nil => exact Nat.le_refl acc
  | cons v t ih =>
    exact Nat.le_trans (Nat.le_max_left acc v.versionNumber) (ih (max acc v.versionNumber))

theorem mem_le_foldl_max (l : List NoteVersion) (acc : Nat) :
    ∀ v ∈ l, v.versionNumber ≤ l.foldl (fun m v => max m v.versionNumber) acc := by
  induction l generalizing acc with
  | nil => intro v hv; cases hv
  | cons w t ih =>
    intro v hv
    rcases List.mem_cons.mp hv with rfl | hvt
    · exact Nat.le_trans (Nat.le_max_right acc v.versionNumber) (le_foldl_max t _)
    · exact ih _ v hvt

/-- Composition of a soft delete and a restore on the notes table: every
row with the target id ends with `deleted_at` null again and `updated_at`
stamped by the trigger at restore time; every other row is untouched. -/
theorem softDelete_restore_notes (db : DB) (id t1 t2 : Nat) :
    (restoreNote (softDelete db id t1) id t2).notes =
      db.notes.map fun n =>
        if n.id = id then { n with deletedAt := none, updatedAt := t2 } else n := by
  simp only [softDelete, restoreNote, updateUpdatedAtColumn, List.map_map]
  apply List.map_congr_left
  intro n _
  by_cases h : n.id = id
  · simp [Function.comp, h]
  · simp [Function.comp, h]

/-! ## Claim theorems -/

/-- C1, counterexample: the debounced auto-save flush (`handleAutoSave`) is
a code path that writes new title/content to an existing note row, yet it
inserts no NoteVersion row: starting from one note with content
`<p>Milk</p>` and no versions, flushing content `<p>Milk, Eggs</p>` leaves
the version count at 0, not 1 — refuting the claim for the auto-save
path. -/
theorem c1_autosave_inserts_no_version :
    let db0 : DB := ⟨[⟨1, some "Groceries", some "<p>Milk</p>", false, none, 0, 0, none⟩], [], [], []⟩
    let db1 := handleAutoSave db0 1 "Groceries" "<p>Milk, Eggs</p>" false none 5
    ((db1.notes.find? (fun n => n.id == 1)).map fun n => n.content) =
      some (some "<p>Milk, Eggs</p>") ∧
    (versionsFor db1 1).length ≠ (versionsFor db0 1).length + 1 := by
  decide

/-- C1, amended: for the manual save path (`handleSave` on an existing
note, both backend calls succeeding), the number of NoteVersion rows of the
note increases by exactly 1; the inserted row — the newest, its version
number exceeding every pre-existing one — carries the note's title and
content from before the update, and the note row itself is then updated
with the new values.  The auto-save flush inserts no version row
(counterexample above). -/
theorem c1_save_snapshots_pre_update_content (db : DB) (noteId : Nat) (cur : Note)
    (title content : String) (isPinned : Bool) (color : Option String) (now : Nat)
    (hcur : findNote db noteId = some cur) :
    (versionsFor (handleSaveExisting db noteId title content isPinned color true true now).1 noteId).length =
      (versionsFor db noteId).length + 1 ∧
    (versionsFor (handleSaveExisting db noteId title content isPinned color true true now).1 noteId).getLast? =
      some ⟨noteId, cur.title, cur.content, latestVersionNumber db noteId + 1, now⟩ ∧
    (∀ v ∈ versionsFor db noteId, v.versionNumber < latestVersionNumber db noteId + 1) ∧
    (handleSaveExisting db noteId title content isPinned color true true now).1.notes =
      (updateNoteFields db noteId (jsOrNull title) (jsOrNull content) isPinned color now).notes ∧
    (handleSaveExisting db noteId title content isPinned color true true now).2 = false := by
  have hr : handleSaveExisting db noteId title content isPinned color true true now =
      (updateNoteFields
        { db with versions := db.versions ++
            [⟨noteId, cur.title, cur.content, latestVersionNumber db noteId + 1, now⟩] }
        noteId (jsOrNull title) (jsOrNull content) isPinned color now, false) := by
    simp [handleSaveExisting, hcur]
  refine ⟨?_, ?_, ?_, ?_, ?_⟩
  · rw [hr]
    simp [versionsFor, updateNoteFields, List.filter_append]
  · rw [hr]
    simp [versionsFor, updateNoteFields, List.filter_append, List.getLast?_concat]
  · intro v hv
    exact Nat.lt_succ_of_le (mem_le_foldl_max _ 0 v hv)
  · rw [hr]; rfl
  · rw [hr]

/-- C1, witness: on a database holding one note (content `<p>Milk</p>`) and
no versions, the manual save of content `<p>Milk, Eggs</p>` raises the
note's version count from 0 to 1. -/
theorem c1_save_snapshots_pre_update_content_witness :
    (findNote (⟨[⟨1, some "Groceries", some "<p>Milk</p>", false, none, 0, 0, none⟩], [], [], []⟩ : DB) 1 =
      some ⟨1, some "Groceries", some "<p>Milk</p>", false, none, 0, 0, none⟩) ∧
    (versionsFor (handleSaveExisting
        ⟨[⟨1, some "Groceries", some "<p>Milk</p>", false, none, 0, 0, none⟩], [], [], []⟩
        1 "Groceries" "<p>Milk, Eggs</p>" false none true true 5).1 1).length =
      (versionsFor (⟨[⟨1, some "Groceries", some "<p>Milk</p>", false, none, 0, 0, none⟩], [], [], []⟩ : DB) 1).length + 1 :=
  ⟨by decide,
   (c1_save_snapshots_pre_update_content
     ⟨[⟨1, some "Groceries", some "<p>Milk</p>", false, none, 0, 0, none⟩], [], [], []⟩ 1
     ⟨1, some "Groceries", some "<p>Milk</p>", false, none, 0, 0, none⟩
     "Groceries" "<p>Milk, Eggs</p>" false none 5 (by decide)).1⟩

/-- C2: evaluation at the failing input.  When the version-snapshot insert
fails during `handleSave` of an existing note (`versionInsertOk = false`),
the code discards the insert's result: the note row is still updated to the
new content, no version row exists, and no error is surfaced — the update
silently proceeds, contradicting the claimed failure policy. -/
theorem c2_failed_snapshot_update_proceeds :
    (handleSaveExisting
      ⟨[⟨1, some "Groceries", some "<p>Milk</p>", false, none, 0, 0, none⟩], [], [], []⟩
      1 "Groceries" "<p>Milk, Eggs</p>" false none false true 5).2 = false ∧
    (handleSaveExisting
      ⟨[⟨1, some "Groceries", some "<p>Milk</p>", false, none, 0, 0, none⟩], [], [], []⟩
      1 "Groceries" "<p>Milk, Eggs</p>" false none false true 5).1.versions = [] ∧
    (((handleSaveExisting
        ⟨[⟨1, some "Groceries", some "<p>Milk</p>", false, none, 0, 0, none⟩], [], [], []⟩
        1 "Groceries" "<p>Milk, Eggs</p>" false none false true 5).1.notes.find?
        (fun n => n.id == 1)).map fun n => n.content) =
      some (some "<p>Milk, Eggs</p>") := by
  decide

/-- C3, counterexample: soft-deleting at time 5 and restoring at time 9 a
note whose `updated_at` was 0 brings it back with `updated_at = 9` — the
`update_updated_at_column` trigger stamps every update, so the timestamps
are not all equal to their values before the soft delete. -/
theorem c3_restore_changes_updated_at :
    let db0 : DB := ⟨[⟨1, some "T", some "C", false, none, 0, 0, none⟩], [], [], []⟩
    let db1 := restoreNote (softDelete db0 1 5) 1 9
    ((db1.notes.find? (fun n => n.id == 1)).map fun n => n.updatedAt) = some 9 ∧
    db1.notes ≠ db0.notes := by
  decide

/-- C3, amended: after `softDelete` then `restore`, the note reappears in
the active list with title, content, pin flag, color and `created_at`
unchanged and `deleted_at` null again; only `updated_at` differs, stamped
with the restore time by the database trigger.  The other tables are
untouched. -/
theorem c3_softdelete_restore_fields (db : DB) (id t1 t2 : Nat) (note : Note)
    (hmem : note ∈ db.notes) (hid : note.id = id) :
    { note with deletedAt := none, updatedAt := t2 } ∈
      activeNotes (restoreNote (softDelete db id t1) id t2) ∧
    (restoreNote (softDelete db id t1) id t2).notes =
      (db.notes.map fun n =>
        if n.id = id then { n with deletedAt := none, updatedAt := t2 } else n) ∧
    (restoreNote (softDelete db id t1) id t2).versions = db.versions ∧
    (restoreNote (softDelete db id t1) id t2).noteTags = db.noteTags ∧
    (restoreNote (softDelete db id t1) id t2).sharedLinks = db.sharedLinks := by
  have h1 := softDelete_restore_notes db id t1 t2
  refine ⟨?_, h1, rfl, rfl, rfl⟩
  simp only [activeNotes]
  rw [h1]
  apply List.mem_filter.mpr
  constructor
  · exact List.mem_map.mpr ⟨note, hmem, by simp [hid]⟩
  · rfl

/-- C3, witness: a concrete note soft-deleted at time 5 and restored at
time 9 is back in the active list with all fields but `updated_at`
unchanged. -/
theorem c3_softdelete_restore_fields_witness :
    ((⟨1, some "T", some "C", false, none, 0, 0, none⟩ : Note) ∈
      (⟨[⟨1, some "T", some "C", false, none, 0, 0, none⟩], [], [], []⟩ : DB).notes) ∧
    { (⟨1, some "T", some "C", false, none, 0, 0, none⟩ : Note) with
        deletedAt := (none : Option Nat), updatedAt := 9 } ∈
      activeNotes (restoreNote
        (softDelete ⟨[⟨1, some "T", some "C", false, none, 0, 0, none⟩], [], [], []⟩ 1 5) 1 9) :=
  ⟨by decide, (c3_softdelete_restore_fields _ 1 5 9 _ (by decide) rfl).1⟩

/-- C4: a SharedLink whose `expires_at` is set and in the past at
resolution time is never resolvable, even when found active by token: the
resolver ends in the Error state with the expired message, the note payload
is never set (Ready is unreachable), and any subsequent unlock attempt
leaves that state (and the database) unchanged. -/
theorem c4_expired_link_never_ready (db : DB) (token : String) (link : SharedLink)
    (e now : Nat)
    (hfind : db.sharedLinks.find? (fun l => l.shareToken == token && l.isActive) = some link)
    (hexp : link.expiresAt = some e) (hpast : e < now) :
    loadSharedNote db token now =
      (db, { initResolver with error := some "This shared link has expired." }) ∧
    ({ initResolver with error := some "This shared link has expired." } : ResolverState).note
      = none ∧
    ∀ pwd t, handleUnlock db { initResolver with error := some "This shared link has expired." } pwd t =
      (db, { initResolver with error := some "This shared link has expired." }) := by
  refine ⟨?_, rfl, ?_⟩
  · simp [loadSharedNote, hfind, hexp, hpast]
  · intro pwd t
    by_cases hp : pwd = ""
    · simp [handleUnlock, hp]
    · simp [handleUnlock, hp, initResolver]

/-- C4, witness: a link with `expires_at = 5`, active, resolved at time 10,
ends in the expired Error state. -/
theorem c4_expired_link_never_ready_witness :
    ((⟨[], [], [], [⟨7, 1, "tok", none, some 5, 0, true, 0⟩]⟩ : DB).sharedLinks.find?
      (fun l => l.shareToken == "tok" && l.isActive) =
        some ⟨7, 1, "tok", none, some 5, 0, true, 0⟩) ∧
    5 < 10 ∧
    loadSharedNote ⟨[], [], [], [⟨7, 1, "tok", none, some 5, 0, true, 0⟩]⟩ "tok" 10 =
      (⟨[], [], [], [⟨7, 1, "tok", none, some 5, 0, true, 0⟩]⟩,
       { initResolver with error := some "This shared link has expired." }) :=
  ⟨by decide, by decide,
   (c4_expired_link_never_ready ⟨[], [], [], [⟨7, 1, "tok", none, some 5, 0, true, 0⟩]⟩
     "tok" ⟨7, 1, "tok", none, some 5, 0, true, 0⟩ 5 10 (by decide) rfl (by decide)).1⟩

/-- C5, counterexample: submitting the empty password against a
password-protected link in the PasswordRequired state is a case where the
submitted digest differs from the stored hash, yet `handleUnlock` returns
before hashing (`if (!password || !sharedNote) return`): the state is
completely unchanged and `passwordError` stays `false`, not `true` as the
claim requires. -/
theorem c5_empty_password_not_flagged :
    let link0 : SharedLink :=
      ⟨7, 1, "tok", some "1c8bfe8f801d79745c4631d09fff36c82aa37fc4cce4fc946683d7b336b63032",
       none, 0, true, 0⟩
    let db0 : DB := ⟨[⟨1, some "T", some "C", false, none, 0, 0, none⟩], [], [], [link0]⟩
    let r := loadSharedNote db0 "tok" 0
    hashPasswordCreate "letmein" =
      "1c8bfe8f801d79745c4631d09fff36c82aa37fc4cce4fc946683d7b336b63032" ∧
    r.2.requiresPassword = true ∧
    hashPasswordResolve "" ≠
      "1c8bfe8f801d79745c4631d09fff36c82aa37fc4cce4fc946683d7b336b63032" ∧
    handleUnlock r.1 r.2 "" 0 = (r.1, r.2) ∧
    (handleUnlock r.1 r.2 "" 0).2.passwordError = false := by
  decide

/-- C5, amended: for a password-protected SharedLink held in the
PasswordRequired state, submitting a nonempty password whose digest equals
the stored hash invokes the privileged content fetch (Ready on success)
with the error flag cleared; a nonempty password whose digest differs
leaves the state at PasswordRequired with `passwordError = true`, fetches
nothing and leaves the database — hence every `view_count` — unchanged;
submitting the empty password is ignored outright
(no flag, no fetch). -/
theorem c5_password_gate (db : DB) (st : ResolverState) (sn : SharedLink) (h : String)
    (pwd : String) (now : Nat)
    (hsn : st.sharedNote = some sn) (hh : sn.passwordHash = some h) :
    (pwd = "" → handleUnlock db st pwd now = (db, st)) ∧
    (pwd ≠ "" → hashPasswordResolve pwd ≠ h →
      handleUnlock db st pwd now = (db, { st with passwordError := true })) ∧
    (pwd ≠ "" → hashPasswordResolve pwd = h →
      handleUnlock db st pwd now =
        loadNoteContent db sn.noteId sn.id now { st with passwordError := false }) := by
  refine ⟨fun hp => by simp [handleUnlock, hp], fun hp hne => ?_, fun hp heq => ?_⟩
  · simp [handleUnlock, hp, hsn, hh, hne]
  · simp [handleUnlock, hp, hsn, hh, heq]

/-- C5, witness: with the stored hash of "letmein", submitting "wrong"
leaves PasswordRequired with `passwordError = true` and the database
untouched. -/
theorem c5_password_gate_witness :
    (({ error := none,
        sharedNote := some ⟨7, 1, "tok",
          some "1c8bfe8f801d79745c4631d09fff36c82aa37fc4cce4fc946683d7b336b63032",
          none, 0, true, 0⟩,
        note := none, requiresPassword := true, passwordError := false } :
        ResolverState).sharedNote =
      some ⟨7, 1, "tok",
        some "1c8bfe8f801d79745c4631d09fff36c82aa37fc4cce4fc946683d7b336b63032",
        none, 0, true, 0⟩) ∧
    handleUnlock ⟨[], [], [], []⟩
      { error := none,
        sharedNote := some ⟨7, 1, "tok",
          some "1c8bfe8f801d79745c4631d09fff36c82aa37fc4cce4fc946683d7b336b63032",
          none, 0, true, 0⟩,
        note := none, requiresPassword := true, passwordError := false } "wrong" 0 =
      (⟨[], [], [], []⟩,
       { error := none,
         sharedNote := some ⟨7, 1, "tok",
           some "1c8bfe8f801d79745c4631d09fff36c82aa37fc4cce4fc946683d7b336b63032",
           none, 0, true, 0⟩,
         note := none, requiresPassword := true, passwordError := true }) :=
  ⟨rfl,
   (c5_password_gate ⟨[], [], [], []⟩
     { error := none,
       sharedNote := some ⟨7, 1, "tok",
         some "1c8bfe8f801d79745c4631d09fff36c82aa37fc4cce4fc946683d7b336b63032",
         none, 0, true, 0⟩,
       note := none, requiresPassword := true, passwordError := false }
     ⟨7, 1, "tok",
       some "1c8bfe8f801d79745c4631d09fff36c82aa37fc4cce4fc946683d7b336b63032",
       none, 0, true, 0⟩
     "1c8bfe8f801d79745c4631d09fff36c82aa37fc4cce4fc946683d7b336b63032"
     "wrong" 0 rfl rfl).2.1 (by decide) (by decide)⟩

/-- C6 is about the unpredictability of `Math.random`; what is statable is
the shape: every generated token has exactly 24 characters. -/
theorem generateToken_length (rand : Nat → Nat) : (generateToken rand).length = 24 := by
  show ((List.range 24).map fun i => tokenChars.toList.getD (rand i % 62) 'A').length = 24
  rw [List.length_map, List.length_range]

/-- Every character of a generated token is drawn from the 62-letter
alphanumeric alphabet. -/
theorem generateToken_alphanumeric (rand : Nat → Nat) :
    ∀ c ∈ (generateToken rand).data, c ∈ tokenChars.data := by
  intro c hc
  have hc2 : c ∈ (List.range 24).map fun i => tokenChars.toList.getD (rand i % 62) 'A' := hc
  obtain ⟨i, -, rfl⟩ := List.mem_map.mp hc2
  have hlen : tokenChars.toList.length = 62 := rfl
  have hlt : rand i % 62 < tokenChars.toList.length := by
    rw [hlen]; exact Nat.mod_lt _ (by decide)
  rw [List.getD_eq_getElem tokenChars.toList 'A' hlt]
  exact List.getElem_mem hlt

/-- The nominal token space of 24 characters over a 62-letter alphabet
exceeds 2^142 (the claim's entropy figure would hold of a uniform
choice). -/
theorem tokenSpace_exceeds_142_bits : 2 ^ 142 ≤ tokenChars.length ^ 24 := by
  decide

/-- C7: the password-hashing function used at share-link creation
(ShareNoteDialog.tsx) and the one used at resolution (SharedNote.tsx) are
extensionally equal — both UTF-8 encode, apply SHA-256 and render the
digest as lowercase hex — so verification with the original password
compares identical digests. -/
theorem c7_hash_functions_agree (pwd : String) :
    hashPasswordCreate pwd = hashPasswordResolve pwd := rfl

/-- C8: attaching a tag to a note is idempotent.  After an attach (whatever
its outcome), a repeated attach of the same pair leaves the association
table unchanged and surfaces no error to the user: the primary-key
violation's message contains 'duplicate' and the handler swallows exactly
that error. -/
theorem c8_attach_idempotent (db : DB) (noteId tagId : Nat) :
    addTagToNote (addTagToNote db noteId tagId).1 noteId tagId =
      ((addTagToNote db noteId tagId).1, false) := by
  have hdup : jsIncludes "duplicate key value violates unique constraint" "duplicate" = true := by
    decide
  by_cases hmem : (noteId, tagId) ∈ db.noteTags
  · simp [addTagToNote, insertNoteTag, hmem, hdup]
  · simp [addTagToNote, insertNoteTag, hmem, hdup, List.mem_append]

/-- C9: the export converters on the spec's concrete example —
tag-stripping of `<p>Hello <b>World</b></p>` yields `Hello World`, and the
HTML-to-Markdown conversion yields `Hello **World**`. -/
theorem c9_export_example :
    stripHtml "<p>Hello <b>World</b></p>" = "Hello World" ∧
    htmlToMarkdown "<p>Hello <b>World</b></p>" = "Hello **World**" := by
  decide

/-- C10, counterexample: selecting Restore writes nothing itself, but it
marks the editor dirty, so the debounced auto-save flush that follows
persists the restored title/content to the notes table with no explicit
save in between: the database is no longer the one from before the
restore. -/
theorem c10_autosave_persists_restored_version :
    let db0 : DB := ⟨[⟨1, some "T", some "<p>New</p>", false, none, 0, 0, none⟩], [], [], []⟩
    let st0 : EditorState := ⟨"T", "<p>New</p>", false, none, false, false⟩
    let v0 : NoteVersion := ⟨1, some "T", some "<p>Old</p>", 1, 0⟩
    let st1 := restoreVersion st0 v0
    st1.title = "T" ∧ st1.content = "<p>Old</p>" ∧
    (restoreStep (db0, st0) v0).1 = db0 ∧
    st1.autoSavePending = true ∧
    (autoSaveFlush db0 1 st1 5).1 ≠ db0 ∧
    (((autoSaveFlush db0 1 st1 5).1.notes.find? (fun n => n.id == 1)).map
      fun n => n.content) = some (some "<p>Old</p>") := by
  decide

/-- C10, amended: selecting Restore replaces only the editor's in-memory
title and content with the version's values (pin flag and color keep their
editor values) and performs no immediate database write — no note update,
no version insert.  It does, however, leave a debounced auto-save pending,
and when that flush fires the restored title/content are written to the
notes table (through the trigger-stamped update, still inserting no version
row) without any explicit save by the user. -/
theorem c10_restore_in_memory_then_flush (db : DB) (st : EditorState) (v : NoteVersion)
    (noteId now : Nat)
    (hne : ((v.title.getD "" != "") || (v.content.getD "" != "")) = true) :
    (restoreStep (db, st) v).1 = db ∧
    (restoreVersion st v).title = v.title.getD "" ∧
    (restoreVersion st v).content = v.content.getD "" ∧
    (restoreVersion st v).isPinned = st.isPinned ∧
    (restoreVersion st v).color = st.color ∧
    (restoreVersion st v).autoSavePending = true ∧
    autoSaveFlush db noteId (restoreVersion st v) now =
      (updateNoteFields db noteId (jsOrNull (v.title.getD "")) (jsOrNull (v.content.getD ""))
         st.isPinned st.color now,
       { restoreVersion st v with autoSavePending := false, hasUnsavedChanges := false }) ∧
    (autoSaveFlush db noteId (restoreVersion st v) now).1.versions = db.versions := by
  have hrv : restoreVersion st v =
      { st with title := v.title.getD "", content := v.content.getD "",
                hasUnsavedChanges := true, autoSavePending := true } := by
    simp [restoreVersion, runEditorEffects, hne]
  refine ⟨rfl, ?_, ?_, ?_, ?_, ?_, ?_, ?_⟩
  · rw [hrv]
  · rw [hrv]
  · rw [hrv]
  · rw [hrv]
  · rw [hrv]
  · rw [hrv]; simp [autoSaveFlush, handleAutoSave]
  · rw [hrv]; simp [autoSaveFlush, handleAutoSave, updateNoteFields]

/-- C10, witness: restoring a version with content `<p>Old</p>` into an
editor holding `<p>New</p>` touches no database row by itself; the later
flush writes the restored content. -/
theorem c10_restore_in_memory_then_flush_witness :
    ((((⟨1, some "T", some "<p>Old</p>", 1, 0⟩ : NoteVersion).title.getD "" != "") ||
      ((⟨1, some "T", some "<p>Old</p>", 1, 0⟩ : NoteVersion).content.getD "" != "")) = true) ∧
    (restoreStep (⟨[⟨1, some "T", some "<p>New</p>", false, none, 0, 0, none⟩], [], [], []⟩,
      ⟨"T", "<p>New</p>", false, none, false, false⟩) ⟨1, some "T", some "<p>Old</p>", 1, 0⟩).1 =
      ⟨[⟨1, some "T", some "<p>New</p>", false, none, 0, 0, none⟩], [], [], []⟩ :=
  ⟨by decide,
   (c10_restore_in_memory_then_flush
     ⟨[⟨1, some "T", some "<p>New</p>", false, none, 0, 0, none⟩], [], [], []⟩
     ⟨"T", "<p>New</p>", false, none, false, false⟩
     ⟨1, some "T", some "<p>Old</p>", 1, 0⟩ 1 5 (by decide)).1⟩

end KeepNotes
